import Mathlib

/-!
Shallow embedding of the thunderstorm-collector configuration resolver
(`src/go/config.go`) and proofs about its validation pipeline.

The Go functions `ReadTemplateFile` and `CreateFlagset`/`flags.Parse` are
declared in files outside this repository snapshot, so the pipeline is
parametrised over them (and over `net/url.Parse`, a standard-library
collaborator); the validation logic itself (`ParseConfig`, lines 49-99 of
`config.go`) is embedded directly.  Output to the error stream is modelled
as a list of events (message lines and usage printings) and `os.Exit` as a
terminal result carrying the exit code.
-/

deriving instance DecidableEq for Except

namespace Thunderstorm

/-- The `Config` struct, `config.go` lines 11-27.  Go `int`/`int64` fields
are modelled as `Int` (the validation logic only compares them). -/
structure Config where
  MaxAgeInDays : Int
  RootPaths : List String
  FileExtensions : List String
  Server : String
  Sync : Bool
  Debug : Bool
  Threads : Int
  MaxFileSize : Int
  Proxy : String
  CAs : List String
  Insecure : Bool
  Logfile : String
  Source : String
  Template : String
  Help : Bool
deriving Repr, DecidableEq

/-- `getRootPath`, `config.go` lines 41-47, parametrised by `runtime.GOOS`. -/
def getRootPath (goos : String) : String :=
  if goos = "windows" then "C:\\" else "/"

/-- `DefaultConfig`, `config.go` lines 29-34, parametrised by `runtime.GOOS`
and the hostname returned by `os.Hostname` (`HostnameOrBlank`). -/
def DefaultConfig (goos hostname : String) : Config :=
  { MaxAgeInDays := 0
    RootPaths := [getRootPath goos]
    FileExtensions := []
    Server := ""
    Sync := false
    Debug := false
    Threads := 1
    MaxFileSize := 100
    Proxy := ""
    CAs := []
    Insecure := false
    Logfile := ""
    Source := hostname
    Template := ""
    Help := false }

/-- Go `strings.HasPrefix`, on the character sequences of the strings. -/
def hasPrefix (s pre : String) : Bool :=
  pre.data.isPrefixOf s.data

/-- Go `strings.HasSuffix`, on the character sequences of the strings. -/
def hasSuffix (s suffix : String) : Bool :=
  suffix.data.isSuffixOf s.data

/-- Go `strings.TrimSuffix`: removes exactly one occurrence of the suffix,
if present. -/
def trimSuffix (s suffix : String) : String :=
  if hasSuffix s suffix then ⟨s.data.take (s.data.length - suffix.data.length)⟩ else s

/-- One event on the diagnostic stream: a printed message line
(`fmt.Fprintln(os.Stderr, ...)`) or a printing of the usage text
(`flags.Usage()`). -/
inductive OutEvent where
  | msg (s : String)
  | usage
deriving Repr, DecidableEq

/-- Terminal outcome of the resolver: `os.Exit(code)`, or the returned
`Config`. -/
inductive PResult where
  | exited (code : Nat)
  | returned (c : Config)
deriving Repr, DecidableEq

/-- Outcome together with everything printed to the diagnostic stream, in
order. -/
structure RunResult where
  result : PResult
  events : List OutEvent
deriving Repr, DecidableEq

/-- The semantic validation phase of `ParseConfig`, `config.go` lines
71-99: the four field checks, the trailing-slash trim (line 88), then the
scheme-prefix and URL-syntax checks on the trimmed value.  `urlOk` models
whether `url.Parse` succeeds (standard-library collaborator). -/
def validate (urlOk : String → Bool) (c : Config) : RunResult :=
  if c.Server = "" then
    ⟨.exited 1, [.msg "Thunderstorm Server URL not specified"]⟩
  else if c.Threads < 1 then
    ⟨.exited 1, [.msg "Thread count must be > 0"]⟩
  else if c.MaxAgeInDays < 0 then
    ⟨.exited 1, [.msg "Maximum file age must be >= 0"]⟩
  else if c.MaxFileSize < 1 then
    ⟨.exited 1, [.msg "Maximum file size must be >= 0", .usage]⟩
  else
    let server := trimSuffix c.Server "/"
    if ¬ (hasPrefix server "http://" || hasPrefix server "https://") then
      ⟨.exited 1, [.msg "Missing http:// or https:// prefix in Thunderstorm URL"]⟩
    else if ¬ urlOk server then
      ⟨.exited 1, [.msg "URL for Thunderstorm is invalid"]⟩
    else
      ⟨.returned { c with Server := server }, []⟩

/-- `ParseConfig`, `config.go` lines 49-99.  `readTemplate` models
`ReadTemplateFile` (not in this snapshot), `flagParse` models
`CreateFlagset` plus `flags.Parse` (not in this snapshot), `urlOk` models
`url.Parse` success.  `osArgs` is the full `os.Args`, program name
included; note line 61 hands `os.Args` to `flags.Parse` unmodified. -/
def ParseConfig (goos hostname : String)
    (readTemplate : Config → Except String Config)
    (flagParse : Config → List String → Except String Config)
    (urlOk : String → Bool)
    (osArgs : List String) : RunResult :=
  match readTemplate (DefaultConfig goos hostname) with
  | .error e => ⟨.exited 1, [.msg e]⟩
  | .ok c₁ =>
    match flagParse c₁ osArgs with
    | .error e => ⟨.exited 1, [.msg e, .usage]⟩
    | .ok c₂ =>
      if c₂.Help || osArgs.length == 1 then
        ⟨.exited 0, [.usage]⟩
      else
        validate urlOk c₂

/-- Modelled from the spec: `ReadTemplateFile` is not in this snapshot.
Per §4.2, when the `Template` field is empty (no `--template` flag and no
template default) the loader returns its input unchanged; this models
exactly that no-template case. -/
def readTemplateNone : Config → Except String Config := Except.ok

/-- Decimal digit value of a character, if it is one. -/
def charDigit (c : Char) : Option Nat :=
  if '0' ≤ c ∧ c ≤ '9' then some (c.toNat - '0'.toNat) else none

/-- Reads a character sequence as a decimal natural number. -/
def natOfDigits (l : List Char) : Option Nat :=
  if l.isEmpty then none
  else
    l.foldl
      (fun acc c =>
        match acc, charDigit c with
        | some n, some d => some (10 * n + d)
        | _, _ => none)
      (some 0)

/-- Reads a string as a decimal integer with optional leading minus sign
(model of the flag library's integer value parsing). -/
def intOfString (s : String) : Option Int :=
  match s.data with
  | '-' :: rest => (natOfDigits rest).map (fun n => -(n : Int))
  | l => (natOfDigits l).map (fun n => (n : Int))

/-- Modelled from the spec: `CreateFlagset`/`flags.Parse` are not in this
snapshot.  Per §4.3 every CLI-eligible field registers a flag under its
canonical long name; unknown flags fail with an error naming the flag;
tokens not starting with `-` are positional and skipped (the chosen flag
library permits interspersed positional arguments, which is how the
program name in `os.Args` is tolerated).  Only the long-name flags the
scenarios below need are modelled. -/
def flagParseModel : Config → List String → Except String Config
  | c, [] => .ok c
  | c, tok :: rest =>
    if tok = "--thunderstorm-server" then
      match rest with
      | v :: rest' => flagParseModel { c with Server := v } rest'
      | [] => .error "flag needs an argument: --thunderstorm-server"
    else if tok = "--threads" then
      match rest with
      | v :: rest' =>
        match intOfString v with
        | some n => flagParseModel { c with Threads := n } rest'
        | none => .error ("invalid argument \x22" ++ v ++ "\x22 for \x22--threads\x22 flag")
      | [] => .error "flag needs an argument: --threads"
    else if tok = "--help" || tok = "-h" then
      flagParseModel { c with Help := true } rest
    else if hasPrefix tok "-" then
      .error ("unknown flag: " ++ tok)
    else
      flagParseModel c rest

/-- Whether semantic rule `i` (in the fixed order of `config.go` lines
71-98: Server non-empty, Threads, MaxAgeInDays, MaxFileSize, scheme
prefix, URL syntax) is violated by `c`.  Rules 4 and 5 read the trimmed
server value, exactly as the source does after line 88. -/
def ruleViolated (urlOk : String → Bool) (c : Config) : Nat → Bool
  | 0 => c.Server == ""
  | 1 => decide (c.Threads < 1)
  | 2 => decide (c.MaxAgeInDays < 0)
  | 3 => decide (c.MaxFileSize < 1)
  | 4 => ! (hasPrefix (trimSuffix c.Server "/") "http://"
            || hasPrefix (trimSuffix c.Server "/") "https://")
  | 5 => ! urlOk (trimSuffix c.Server "/")
  | _ => false

/-- The diagnostic printed when rule `i` fires. -/
def ruleMsg : Nat → String
  | 0 => "Thunderstorm Server URL not specified"
  | 1 => "Thread count must be > 0"
  | 2 => "Maximum file age must be >= 0"
  | 3 => "Maximum file size must be >= 0"
  | 4 => "Missing http:// or https:// prefix in Thunderstorm URL"
  | 5 => "URL for Thunderstorm is invalid"
  | _ => ""

/-- Everything printed when rule `i` fires: its diagnostic, plus (for the
MaxFileSize rule only, line 85) the usage text. -/
def ruleEvents (i : Nat) : List OutEvent :=
  if i = 3 then [.msg (ruleMsg i), .usage] else [.msg (ruleMsg i)]

/-- Unfolding lemma: a template-loading error is printed and the process
exits 1 (`config.go` lines 52-55). -/
lemma ParseConfig_rt_error (goos hostname : String)
    (rt : Config → Except String Config)
    (fp : Config → List String → Except String Config)
    (urlOk : String → Bool) (osArgs : List String) (e : String)
    (hrt : rt (DefaultConfig goos hostname) = .error e) :
    ParseConfig goos hostname rt fp urlOk osArgs = ⟨.exited 1, [.msg e]⟩ := by
  unfold ParseConfig
  rw [hrt]

/-- Unfolding lemma: a flag-parsing error is printed, the usage text is
printed, and the process exits 1 (`config.go` lines 62-66). -/
lemma ParseConfig_fp_error (goos hostname : String)
    (rt : Config → Except String Config)
    (fp : Config → List String → Except String Config)
    (urlOk : String → Bool) (osArgs : List String) (c₁ : Config) (e : String)
    (hrt : rt (DefaultConfig goos hostname) = .ok c₁)
    (hfp : fp c₁ osArgs = .error e) :
    ParseConfig goos hostname rt fp urlOk osArgs = ⟨.exited 1, [.msg e, .usage]⟩ := by
  unfold ParseConfig
  rw [hrt]
  simp only [hfp]

/-- Unfolding lemma: when both external stages succeed, what remains is
the help check followed by the validation phase. -/
lemma ParseConfig_ok (goos hostname : String)
    (rt : Config → Except String Config)
    (fp : Config → List String → Except String Config)
    (urlOk : String → Bool) (osArgs : List String) (c₁ c₂ : Config)
    (hrt : rt (DefaultConfig goos hostname) = .ok c₁)
    (hfp : fp c₁ osArgs = .ok c₂) :
    ParseConfig goos hostname rt fp urlOk osArgs =
      if c₂.Help || osArgs.length == 1 then ⟨.exited 0, [.usage]⟩
      else validate urlOk c₂ := by
  unfold ParseConfig
  rw [hrt]
  simp only [hfp]

/-- Unfolding lemma: past the help check, `ParseConfig` is the validation
phase. -/
lemma ParseConfig_validates (goos hostname : String)
    (rt : Config → Except String Config)
    (fp : Config → List String → Except String Config)
    (urlOk : String → Bool) (osArgs : List String) (c₁ c₂ : Config)
    (hrt : rt (DefaultConfig goos hostname) = .ok c₁)
    (hfp : fp c₁ osArgs = .ok c₂)
    (hh : c₂.Help = false) (hlen : osArgs.length ≠ 1) :
    ParseConfig goos hostname rt fp urlOk osArgs = validate urlOk c₂ := by
  rw [ParseConfig_ok goos hostname rt fp urlOk osArgs c₁ c₂ hrt hfp]
  simp [hh, hlen]

/-- A string with an `http://` or `https://` prefix is non-empty. -/
lemma server_ne_empty_of_scheme {s : String}
    (h : hasPrefix s "http://" = true ∨ hasPrefix s "https://" = true) :
    s ≠ "" := by
  rintro rfl
  rcases h with h | h <;> exact absurd h (by decide)

/-- The usage text accompanies a rule diagnostic exactly for the
MaxFileSize rule (rule 3). -/
lemma usage_mem_ruleEvents (i : Nat) : OutEvent.usage ∈ ruleEvents i ↔ i = 3 := by
  unfold ruleEvents
  split
  · simp [*]
  · simp [*]

/-- The validation phase fires the first violated rule: its diagnostic
(and, for rule 3 only, the usage text) is printed and the process exits 1,
regardless of any later rule. -/
lemma validate_first_violated (urlOk : String → Bool) (c : Config) (i : Nat)
    (hviol : ruleViolated urlOk c i = true)
    (hfirst : ∀ j, j < i → ruleViolated urlOk c j = false) :
    validate urlOk c = ⟨.exited 1, ruleEvents i⟩ := by
  match i with
  | 0 =>
    simp only [ruleViolated, beq_iff_eq] at hviol
    simp [validate, hviol, ruleEvents, ruleMsg]
  | 1 =>
    have h0 := hfirst 0 (by omega)
    simp only [ruleViolated, beq_eq_false_iff_ne, decide_eq_true_eq] at hviol h0
    simp [validate, hviol, h0, ruleEvents, ruleMsg]
  | 2 =>
    have h0 := hfirst 0 (by omega)
    have h1 := hfirst 1 (by omega)
    simp only [ruleViolated, beq_eq_false_iff_ne, decide_eq_true_eq,
      decide_eq_false_iff_not] at hviol h0 h1
    simp [validate, hviol, h0, h1, ruleEvents, ruleMsg]
  | 3 =>
    have h0 := hfirst 0 (by omega)
    have h1 := hfirst 1 (by omega)
    have h2 := hfirst 2 (by omega)
    simp only [ruleViolated, beq_eq_false_iff_ne, decide_eq_true_eq,
      decide_eq_false_iff_not] at hviol h0 h1 h2
    simp [validate, hviol, h0, h1, h2, ruleEvents, ruleMsg]
  | 4 =>
    have h0 := hfirst 0 (by omega)
    have h1 := hfirst 1 (by omega)
    have h2 := hfirst 2 (by omega)
    have h3 := hfirst 3 (by omega)
    simp only [ruleViolated, beq_eq_false_iff_ne, decide_eq_false_iff_not,
      Bool.not_eq_true'] at hviol h0 h1 h2 h3
    simp [validate, hviol, h0, h1, h2, h3, ruleEvents, ruleMsg]
  | 5 =>
    have h0 := hfirst 0 (by omega)
    have h1 := hfirst 1 (by omega)
    have h2 := hfirst 2 (by omega)
    have h3 := hfirst 3 (by omega)
    have h4 := hfirst 4 (by omega)
    simp only [ruleViolated, beq_eq_false_iff_ne, decide_eq_false_iff_not,
      Bool.not_eq_true', Bool.not_eq_false'] at hviol h0 h1 h2 h3 h4
    simp [validate, hviol, h0, h1, h2, h3, h4, ruleEvents, ruleMsg]
  | (n + 6) =>
    simp [ruleViolated] at hviol

/-- When the validation phase returns a configuration, every check has
passed on it and its server is the merged server with one trailing slash
trimmed. -/
lemma validate_returned_inv (urlOk : String → Bool) (c c' : Config)
    (evs : List OutEvent)
    (h : validate urlOk c = ⟨.returned c', evs⟩) :
    c'.Server ≠ "" ∧
    (hasPrefix c'.Server "http://" = true ∨ hasPrefix c'.Server "https://" = true) ∧
    urlOk c'.Server = true ∧
    1 ≤ c'.Threads ∧ 0 ≤ c'.MaxAgeInDays ∧ 1 ≤ c'.MaxFileSize ∧
    c'.Server = trimSuffix c.Server "/" := by
  by_cases h1 : c.Server = ""
  · simp [validate, h1] at h
  by_cases h2 : c.Threads < 1
  · simp [validate, h1, h2] at h
  by_cases h3 : c.MaxAgeInDays < 0
  · simp [validate, h1, h2, h3] at h
  by_cases h4 : c.MaxFileSize < 1
  · simp [validate, h1, h2, h3, h4] at h
  by_cases h5 : (hasPrefix (trimSuffix c.Server "/") "http://"
      || hasPrefix (trimSuffix c.Server "/") "https://") = true
  case neg => simp [validate, h1, h2, h3, h4, h5] at h
  case pos =>
  by_cases h6 : urlOk (trimSuffix c.Server "/") = true
  case neg => simp [validate, h1, h2, h3, h4, h5, h6] at h
  case pos =>
  simp [validate, h1, h2, h3, h4, h5, h6] at h
  obtain ⟨hc, hevs⟩ := h
  subst hc
  have h5' : hasPrefix (trimSuffix c.Server "/") "http://" = true ∨
      hasPrefix (trimSuffix c.Server "/") "https://" = true := by
    simpa using h5
  refine ⟨server_ne_empty_of_scheme h5', h5', h6, ?_, ?_, ?_, rfl⟩
  · show 1 ≤ c.Threads
    omega
  · show 0 ≤ c.MaxAgeInDays
    omega
  · show 1 ≤ c.MaxFileSize
    omega

/-- Once the four field rules have passed, the validation phase is the
trim followed by the scheme-prefix and URL-syntax checks on the trimmed
value. -/
lemma validate_passed_four (urlOk : String → Bool) (c : Config)
    (h1 : c.Server ≠ "") (h2 : ¬ c.Threads < 1) (h3 : ¬ c.MaxAgeInDays < 0)
    (h4 : ¬ c.MaxFileSize < 1) :
    validate urlOk c =
      if ¬ (hasPrefix (trimSuffix c.Server "/") "http://"
          || hasPrefix (trimSuffix c.Server "/") "https://") then
        ⟨.exited 1, [.msg "Missing http:// or https:// prefix in Thunderstorm URL"]⟩
      else if ¬ urlOk (trimSuffix c.Server "/") then
        ⟨.exited 1, [.msg "URL for Thunderstorm is invalid"]⟩
      else ⟨.returned { c with Server := trimSuffix c.Server "/" }, []⟩ := by
  simp [validate, h1, h2, h3, h4]

/-- When every rule passes, the validation phase returns the
configuration with the trimmed server and prints nothing. -/
lemma validate_all_pass (urlOk : String → Bool) (c : Config)
    (h1 : c.Server ≠ "") (h2 : ¬ c.Threads < 1) (h3 : ¬ c.MaxAgeInDays < 0)
    (h4 : ¬ c.MaxFileSize < 1)
    (h5 : (hasPrefix (trimSuffix c.Server "/") "http://"
        || hasPrefix (trimSuffix c.Server "/") "https://") = true)
    (h6 : urlOk (trimSuffix c.Server "/") = true) :
    validate urlOk c =
      ⟨.returned { c with Server := trimSuffix c.Server "/" }, []⟩ := by
  rw [validate_passed_four urlOk c h1 h2 h3 h4]
  rw [if_neg (by simp [h5])]
  rw [if_neg (by simp [h6])]

/-- The configuration produced by the C1 sample run. -/
def c1SampleConfig : Config :=
  { DefaultConfig "linux" "h" with Server := "https://x" }

/-- C1 (amended): every configuration returned by `ParseConfig` has a
non-empty `Server` that starts with `http://` or `https://` and that
`url.Parse` accepts, with `Threads ≥ 1`, `MaxAgeInDays ≥ 0` and
`MaxFileSize ≥ 1`; its `Server` is a string with exactly one trailing
slash trimmed, so it may still end in `/` (the original "no trailing
slash" invariant fails when the merged server ends in two slashes). -/
theorem c1_returned_config_invariants (goos hostname : String)
    (rt : Config → Except String Config)
    (fp : Config → List String → Except String Config)
    (urlOk : String → Bool) (osArgs : List String) (c' : Config)
    (evs : List OutEvent)
    (h : ParseConfig goos hostname rt fp urlOk osArgs = ⟨.returned c', evs⟩) :
    c'.Server ≠ "" ∧
    (hasPrefix c'.Server "http://" = true ∨ hasPrefix c'.Server "https://" = true) ∧
    urlOk c'.Server = true ∧
    1 ≤ c'.Threads ∧ 0 ≤ c'.MaxAgeInDays ∧ 1 ≤ c'.MaxFileSize ∧
    (∃ s : String, c'.Server = trimSuffix s "/") := by
  rcases hrt : rt (DefaultConfig goos hostname) with e | c₁
  · rw [ParseConfig_rt_error goos hostname rt fp urlOk osArgs e hrt] at h
    simp at h
  rcases hfp : fp c₁ osArgs with e | c₂
  · rw [ParseConfig_fp_error goos hostname rt fp urlOk osArgs c₁ e hrt hfp] at h
    simp at h
  rw [ParseConfig_ok goos hostname rt fp urlOk osArgs c₁ c₂ hrt hfp] at h
  split at h
  · simp at h
  · obtain ⟨hne, hpre, hurl, hth, hage, hsize, hsrv⟩ :=
      validate_returned_inv urlOk c₂ c' evs h
    exact ⟨hne, hpre, hurl, hth, hage, hsize, ⟨c₂.Server, hsrv⟩⟩

/-- C1 witness: the invariants hold on the configuration returned for
`--thunderstorm-server https://x`. -/
theorem c1_returned_config_invariants_witness :
    c1SampleConfig.Server ≠ "" ∧
    (hasPrefix c1SampleConfig.Server "http://" = true ∨
      hasPrefix c1SampleConfig.Server "https://" = true) ∧
    (fun _ => true) c1SampleConfig.Server = true ∧
    1 ≤ c1SampleConfig.Threads ∧ 0 ≤ c1SampleConfig.MaxAgeInDays ∧
    1 ≤ c1SampleConfig.MaxFileSize ∧
    (∃ s : String, c1SampleConfig.Server = trimSuffix s "/") :=
  c1_returned_config_invariants "linux" "h" readTemplateNone flagParseModel
    (fun _ => true) ["collector", "--thunderstorm-server", "https://x"]
    c1SampleConfig [] (by decide)

/-- C1 counterexample: with merged server `https://x//` the run returns a
configuration whose server, `https://x/`, still ends with a trailing
slash (`strings.TrimSuffix` on line 88 removes only one slash). -/
theorem c1_counterexample :
    ParseConfig "linux" "h" readTemplateNone flagParseModel (fun _ => true)
      ["collector", "--thunderstorm-server", "https://x//"] =
      ⟨.returned { DefaultConfig "linux" "h" with Server := "https://x/" }, []⟩ ∧
    hasSuffix "https://x/" "/" = true :=
  ⟨by decide, by decide⟩

/-- C2: when the merged configuration reaches the validation phase and
violates at least one semantic rule, the first violated rule in the fixed
order (Server non-empty, Threads, MaxAgeInDays, MaxFileSize, scheme
prefix, URL syntax) is the one whose diagnostic is printed, the process
exits with the non-zero status 1, and no later rule is evaluated (the
output is fixed whatever the later rules would say). -/
theorem c2_first_violated_rule_reported (goos hostname : String)
    (rt : Config → Except String Config)
    (fp : Config → List String → Except String Config)
    (urlOk : String → Bool) (osArgs : List String) (c₁ c₂ : Config) (i : Nat)
    (hrt : rt (DefaultConfig goos hostname) = .ok c₁)
    (hfp : fp c₁ osArgs = .ok c₂)
    (hh : c₂.Help = false) (hlen : osArgs.length ≠ 1)
    (hviol : ruleViolated urlOk c₂ i = true)
    (hfirst : ∀ j, j < i → ruleViolated urlOk c₂ j = false) :
    ParseConfig goos hostname rt fp urlOk osArgs = ⟨.exited 1, ruleEvents i⟩ := by
  rw [ParseConfig_validates goos hostname rt fp urlOk osArgs c₁ c₂ hrt hfp hh hlen]
  exact validate_first_violated urlOk c₂ i hviol hfirst

/-- C2 witness: `--threads 0 --thunderstorm-server https://x` fails on
the thread-count rule, the second in the fixed order. -/
theorem c2_first_violated_rule_reported_witness :
    ParseConfig "linux" "h" readTemplateNone flagParseModel (fun _ => true)
      ["collector", "--threads", "0", "--thunderstorm-server", "https://x"] =
      ⟨.exited 1, ruleEvents 1⟩ :=
  c2_first_violated_rule_reported "linux" "h" readTemplateNone flagParseModel
    (fun _ => true)
    ["collector", "--threads", "0", "--thunderstorm-server", "https://x"]
    (DefaultConfig "linux" "h")
    { DefaultConfig "linux" "h" with Threads := 0, Server := "https://x" } 1
    (by decide) (by decide) (by decide) (by decide) (by decide)
    (by
      intro j hj
      have hj0 : j = 0 := by omega
      subst hj0
      decide)

/-- C3 counterexample: the merged server `https://` passes the
scheme-prefix check untrimmed, yet the run is rejected with the
scheme-prefix diagnostic — because line 88 trims the trailing slash to
`https:/` before that check runs, not after all rules. -/
theorem c3_counterexample :
    hasPrefix "https://" "https://" = true ∧
    ParseConfig "linux" "h" readTemplateNone flagParseModel (fun _ => true)
      ["collector", "--thunderstorm-server", "https://"] =
      ⟨.exited 1, [.msg "Missing http:// or https:// prefix in Thunderstorm URL"]⟩ :=
  ⟨by decide, by decide⟩

/-- C3 (amended): the trailing-slash trim is performed after the first
four rules but before the scheme-prefix and URL-syntax rules: both of
those rules are evaluated on the trimmed server value, and the trimmed
value is what a successful run returns. -/
theorem c3_trim_before_scheme_checks (urlOk : String → Bool) (c : Config)
    (h1 : c.Server ≠ "") (h2 : ¬ c.Threads < 1) (h3 : ¬ c.MaxAgeInDays < 0)
    (h4 : ¬ c.MaxFileSize < 1) :
    validate urlOk c =
      if ¬ (hasPrefix (trimSuffix c.Server "/") "http://"
          || hasPrefix (trimSuffix c.Server "/") "https://") then
        ⟨.exited 1, [.msg "Missing http:// or https:// prefix in Thunderstorm URL"]⟩
      else if ¬ urlOk (trimSuffix c.Server "/") then
        ⟨.exited 1, [.msg "URL for Thunderstorm is invalid"]⟩
      else ⟨.returned { c with Server := trimSuffix c.Server "/" }, []⟩ :=
  validate_passed_four urlOk c h1 h2 h3 h4

/-- C3 witness: with merged server `http://y/` the trim to `http://y`
happens before the scheme checks and the trimmed value is returned. -/
theorem c3_trim_before_scheme_checks_witness :
    validate (fun _ => true) { DefaultConfig "linux" "h" with Server := "http://y/" } =
      ⟨.returned { DefaultConfig "linux" "h" with Server := "http://y" }, []⟩ := by
  rw [c3_trim_before_scheme_checks (fun _ => true)
    { DefaultConfig "linux" "h" with Server := "http://y/" }
    (by decide) (by decide) (by decide) (by decide)]
  decide

/-- C4: when flag parsing succeeds and the Help flag is set, or `os.Args`
holds nothing beyond the program name, the process prints exactly the
usage text and exits with status 0 — no semantic validation rule is
evaluated, whatever the other field values are. -/
theorem c4_help_short_circuit (goos hostname : String)
    (rt : Config → Except String Config)
    (fp : Config → List String → Except String Config)
    (urlOk : String → Bool) (osArgs : List String) (c₁ c₂ : Config)
    (hrt : rt (DefaultConfig goos hostname) = .ok c₁)
    (hfp : fp c₁ osArgs = .ok c₂)
    (hh : c₂.Help = true ∨ osArgs.length = 1) :
    ParseConfig goos hostname rt fp urlOk osArgs = ⟨.exited 0, [.usage]⟩ := by
  rw [ParseConfig_ok goos hostname rt fp urlOk osArgs c₁ c₂ hrt hfp]
  have hcond : (c₂.Help || osArgs.length == 1) = true := by
    rcases hh with h | h <;> simp [h]
  rw [if_pos hcond]

/-- C4 witness: `--threads 0 --help` still exits 0 with the usage text,
even though the Threads value would fail validation. -/
theorem c4_help_short_circuit_witness :
    ParseConfig "linux" "h" readTemplateNone flagParseModel (fun _ => true)
      ["collector", "--threads", "0", "--help"] = ⟨.exited 0, [.usage]⟩ :=
  c4_help_short_circuit "linux" "h" readTemplateNone flagParseModel (fun _ => true)
    ["collector", "--threads", "0", "--help"] (DefaultConfig "linux" "h")
    { DefaultConfig "linux" "h" with Threads := 0, Help := true }
    (by decide) (by decide) (Or.inl (by decide))

/-- C5 counterexample: an unknown flag makes the process print the parse
error and the usage text and exit with status 1, not 0 — a flag-parse
failure is not the zero-status help terminal state. -/
theorem c5_counterexample :
    ParseConfig "linux" "h" readTemplateNone flagParseModel (fun _ => true)
      ["collector", "--bogus"] =
      ⟨.exited 1, [.msg "unknown flag: --bogus", .usage]⟩ ∧ (1 : Nat) ≠ 0 :=
  ⟨by decide, by decide⟩

/-- C5 (amended): an argument vector that fails flag parsing makes the
process print the parse error and the usage text and exit with the
non-zero status 1 (`config.go` lines 62-66); help, by contrast, exits 0. -/
theorem c5_parse_error_exits_one (goos hostname : String)
    (rt : Config → Except String Config)
    (fp : Config → List String → Except String Config)
    (urlOk : String → Bool) (osArgs : List String) (c₁ : Config) (e : String)
    (hrt : rt (DefaultConfig goos hostname) = .ok c₁)
    (hfp : fp c₁ osArgs = .error e) :
    ParseConfig goos hostname rt fp urlOk osArgs = ⟨.exited 1, [.msg e, .usage]⟩ :=
  ParseConfig_fp_error goos hostname rt fp urlOk osArgs c₁ e hrt hfp

/-- C5 witness: the single unknown flag `-z` exits 1 with its parse error
and the usage text. -/
theorem c5_parse_error_exits_one_witness :
    ParseConfig "linux" "h" readTemplateNone flagParseModel (fun _ => true)
      ["collector", "-z"] = ⟨.exited 1, [.msg "unknown flag: -z", .usage]⟩ :=
  c5_parse_error_exits_one "linux" "h" readTemplateNone flagParseModel
    (fun _ => true) ["collector", "-z"] (DefaultConfig "linux" "h")
    "unknown flag: -z" (by decide) (by decide)

/-- C6 counterexample: a probe parser that reports exactly the argument
list it receives shows the flag parser is handed `collector --help` —
the full `os.Args` with the program name still in front (`config.go`
line 61) — not just `--help`. -/
theorem c6_counterexample :
    ParseConfig "linux" "h" readTemplateNone
      (fun _ args => .error (String.intercalate " " args)) (fun _ => true)
      ["collector", "--help"] =
      ⟨.exited 1, [.msg "collector --help", .usage]⟩ ∧
    "collector --help" ≠ "--help" :=
  ⟨by decide, by decide⟩

/-- C6 (amended): the argument sequence handed to the flag parser is the
full `os.Args`, program name included — line 61 passes `os.Args`
unstripped, so the parser sees the program name (with the chosen flag
library it is treated as a positional argument).  A probe parser that
fails with the argument list it was given receives exactly `osArgs`. -/
theorem c6_parser_receives_full_osargs (goos hostname : String)
    (rt : Config → Except String Config) (urlOk : String → Bool)
    (osArgs : List String) (c₁ : Config)
    (hrt : rt (DefaultConfig goos hostname) = .ok c₁) :
    ParseConfig goos hostname rt
      (fun _ args => .error (String.intercalate " " args)) urlOk osArgs =
      ⟨.exited 1, [.msg (String.intercalate " " osArgs), .usage]⟩ :=
  ParseConfig_fp_error goos hostname rt
    (fun _ args => .error (String.intercalate " " args)) urlOk osArgs c₁
    (String.intercalate " " osArgs) hrt rfl

/-- C6 witness: the probe parser invoked with arguments `prog --debug`
receives both tokens, program name included. -/
theorem c6_parser_receives_full_osargs_witness :
    ParseConfig "linux" "h" readTemplateNone
      (fun _ args => .error (String.intercalate " " args)) (fun _ => true)
      ["prog", "--debug"] =
      ⟨.exited 1, [.msg "prog --debug", .usage]⟩ := by
  rw [c6_parser_receives_full_osargs "linux" "h" readTemplateNone (fun _ => true)
    ["prog", "--debug"] (DefaultConfig "linux" "h") (by decide)]
  decide

/-- C7: for a configuration that reaches the MaxFileSize rule (the three
earlier rules pass), any value < 1 makes the process exit with the
non-zero status 1 printing the defective diagnostic text `Maximum file
size must be >= 0` (the enforced bound is ≥ 1, the message says ≥ 0),
while the value exactly 1 passes the rule — its diagnostic is never
printed. -/
theorem c7_maxfilesize_rule (urlOk : String → Bool) (c : Config)
    (h1 : c.Server ≠ "") (h2 : 1 ≤ c.Threads) (h3 : 0 ≤ c.MaxAgeInDays) :
    (c.MaxFileSize < 1 →
      validate urlOk c =
        ⟨.exited 1, [.msg "Maximum file size must be >= 0", .usage]⟩) ∧
    (c.MaxFileSize = 1 →
      OutEvent.msg "Maximum file size must be >= 0" ∉ (validate urlOk c).events) := by
  have h2' : ¬ c.Threads < 1 := by omega
  have h3' : ¬ c.MaxAgeInDays < 0 := by omega
  constructor
  · intro h4
    simp [validate, h1, h2', h3', h4]
  · intro h4
    have h4' : ¬ c.MaxFileSize < 1 := by omega
    rw [validate_passed_four urlOk c h1 h2' h3' h4']
    split
    · simp
    · split
      · simp
      · simp

/-- C7 witness: MaxFileSize 0 exits 1 with the defective message;
MaxFileSize 1 never prints it. -/
theorem c7_maxfilesize_rule_witness :
    validate (fun _ => true)
        { DefaultConfig "linux" "h" with Server := "https://x", MaxFileSize := 0 } =
      ⟨.exited 1, [.msg "Maximum file size must be >= 0", .usage]⟩ ∧
    OutEvent.msg "Maximum file size must be >= 0" ∉
      (validate (fun _ => true)
        { DefaultConfig "linux" "h" with Server := "https://x", MaxFileSize := 1 }).events :=
  ⟨(c7_maxfilesize_rule (fun _ => true)
      { DefaultConfig "linux" "h" with Server := "https://x", MaxFileSize := 0 }
      (by decide) (by decide) (by decide)).1 (by decide),
   (c7_maxfilesize_rule (fun _ => true)
      { DefaultConfig "linux" "h" with Server := "https://x", MaxFileSize := 1 }
      (by decide) (by decide) (by decide)).2 (by decide)⟩

/-- C8: with no template and exactly `--thunderstorm-server https://x`,
`ParseConfig` returns the configuration with `Threads = 1`,
`MaxFileSize = 100`, `RootPaths = [OS root]` (`C:\` on Windows, `/`
otherwise) and `Server = "https://x"`, printing nothing — the process
continues. -/
theorem c8_default_scenario (goos hostname : String) (urlOk : String → Bool)
    (hurl : urlOk "https://x" = true) :
    ParseConfig goos hostname readTemplateNone flagParseModel urlOk
      ["collector", "--thunderstorm-server", "https://x"] =
      ⟨.returned
        { MaxAgeInDays := 0
          RootPaths := [getRootPath goos]
          FileExtensions := []
          Server := "https://x"
          Sync := false
          Debug := false
          Threads := 1
          MaxFileSize := 100
          Proxy := ""
          CAs := []
          Insecure := false
          Logfile := ""
          Source := hostname
          Template := ""
          Help := false }, []⟩ ∧
    getRootPath "windows" = "C:\\" ∧
    (goos ≠ "windows" → getRootPath goos = "/") := by
  refine ⟨?_, by decide, fun hg => by simp [getRootPath, hg]⟩
  rw [ParseConfig_validates goos hostname readTemplateNone flagParseModel urlOk
    ["collector", "--thunderstorm-server", "https://x"]
    (DefaultConfig goos hostname)
    { DefaultConfig goos hostname with Server := "https://x" }
    rfl rfl rfl (by decide)]
  rw [validate_all_pass urlOk
    { DefaultConfig goos hostname with Server := "https://x" }
    (show ¬ ("https://x" : String) = "" by decide)
    (show ¬ (1 : Int) < 1 by decide)
    (show ¬ (0 : Int) < 0 by decide)
    (show ¬ (100 : Int) < 1 by decide)
    (show (hasPrefix (trimSuffix "https://x" "/") "http://"
        || hasPrefix (trimSuffix "https://x" "/") "https://") = true by decide)
    hurl]
  rfl

/-- C8 witness: the scenario on a Linux host named `host`. -/
theorem c8_default_scenario_witness :
    ParseConfig "linux" "host" readTemplateNone flagParseModel (fun _ => true)
      ["collector", "--thunderstorm-server", "https://x"] =
      ⟨.returned
        { MaxAgeInDays := 0
          RootPaths := [getRootPath "linux"]
          FileExtensions := []
          Server := "https://x"
          Sync := false
          Debug := false
          Threads := 1
          MaxFileSize := 100
          Proxy := ""
          CAs := []
          Insecure := false
          Logfile := ""
          Source := "host"
          Template := ""
          Help := false }, []⟩ ∧
    getRootPath "windows" = "C:\\" ∧ getRootPath "linux" = "/" :=
  ⟨(c8_default_scenario "linux" "host" (fun _ => true) rfl).1,
   (c8_default_scenario "linux" "host" (fun _ => true) rfl).2.1,
   (c8_default_scenario "linux" "host" (fun _ => true) rfl).2.2 (by decide)⟩

/-- C9: resolution is deterministic — two runs from the same compiled-in
defaults (GOOS and hostname), the same template loader, flag parser and
URL parser, and the same argument vector produce identical outcomes,
configuration and exit behaviour included. -/
theorem c9_deterministic (goos hostname : String)
    (rt : Config → Except String Config)
    (fp : Config → List String → Except String Config)
    (urlOk : String → Bool) (osArgs : List String) (r₁ r₂ : RunResult)
    (h₁ : r₁ = ParseConfig goos hostname rt fp urlOk osArgs)
    (h₂ : r₂ = ParseConfig goos hostname rt fp urlOk osArgs) :
    r₁ = r₂ :=
  h₁.trans h₂.symm

/-- C9 witness: two runs with no arguments produce the same outcome. -/
theorem c9_deterministic_witness :
    (⟨.exited 0, [.usage]⟩ : RunResult) = ⟨.exited 0, [.usage]⟩ :=
  c9_deterministic "linux" "h" readTemplateNone flagParseModel (fun _ => true)
    ["collector"] ⟨.exited 0, [.usage]⟩ ⟨.exited 0, [.usage]⟩
    (by decide) (by decide)

/-- C10 counterexample: a semantic validation failure — the MaxFileSize
rule — prints the usage text in addition to its specific message
(`config.go` line 85), contradicting "never the usage text". -/
theorem c10_counterexample :
    ParseConfig "linux" "h" (fun c => .ok { c with MaxFileSize := 0 })
      flagParseModel (fun _ => true)
      ["collector", "--thunderstorm-server", "https://x"] =
      ⟨.exited 1, [.msg "Maximum file size must be >= 0", .usage]⟩ ∧
    OutEvent.usage ∈ [OutEvent.msg "Maximum file size must be >= 0", OutEvent.usage] :=
  ⟨by decide, by decide⟩

/-- C10 (amended): every error prints its one-line message to the
diagnostic stream and exits with the non-zero status 1; the usage text is
additionally printed for flag-parse errors AND for the MaxFileSize rule
(line 85) — every other semantic validation failure prints only its
specific message. -/
theorem c10_error_output (goos hostname : String)
    (rt : Config → Except String Config)
    (fp : Config → List String → Except String Config)
    (urlOk : String → Bool) (osArgs : List String) (c₁ : Config) :
    (∀ e, rt (DefaultConfig goos hostname) = .error e →
      ParseConfig goos hostname rt fp urlOk osArgs = ⟨.exited 1, [.msg e]⟩) ∧
    (∀ e, rt (DefaultConfig goos hostname) = .ok c₁ →
      fp c₁ osArgs = .error e →
      ParseConfig goos hostname rt fp urlOk osArgs =
        ⟨.exited 1, [.msg e, .usage]⟩) ∧
    (∀ c₂ i, rt (DefaultConfig goos hostname) = .ok c₁ →
      fp c₁ osArgs = .ok c₂ → c₂.Help = false → osArgs.length ≠ 1 →
      ruleViolated urlOk c₂ i = true →
      (∀ j, j < i → ruleViolated urlOk c₂ j = false) →
      ParseConfig goos hostname rt fp urlOk osArgs = ⟨.exited 1, ruleEvents i⟩ ∧
      (OutEvent.usage ∈ ruleEvents i ↔ i = 3)) := by
  refine ⟨fun e hrt => ParseConfig_rt_error goos hostname rt fp urlOk osArgs e hrt,
    fun e hrt hfp => ParseConfig_fp_error goos hostname rt fp urlOk osArgs c₁ e hrt hfp,
    fun c₂ i hrt hfp hh hlen hviol hfirst => ⟨?_, usage_mem_ruleEvents i⟩⟩
  rw [ParseConfig_validates goos hostname rt fp urlOk osArgs c₁ c₂ hrt hfp hh hlen]
  exact validate_first_violated urlOk c₂ i hviol hfirst

/-- C10 witness: a template error prints only its message and exits 1; a
MaxAgeInDays violation prints only its diagnostic (no usage text) and
exits 1. -/
theorem c10_error_output_witness :
    ParseConfig "linux" "h" (fun _ => .error "template gone") flagParseModel
      (fun _ => true) ["collector"] = ⟨.exited 1, [.msg "template gone"]⟩ ∧
    (ParseConfig "linux" "h" (fun c => .ok { c with MaxAgeInDays := -1 })
        flagParseModel (fun _ => true)
        ["collector", "--thunderstorm-server", "https://x"] =
        ⟨.exited 1, ruleEvents 2⟩ ∧
      (OutEvent.usage ∈ ruleEvents 2 ↔ (2 : Nat) = 3)) :=
  ⟨(c10_error_output "linux" "h" (fun _ => .error "template gone") flagParseModel
      (fun _ => true) ["collector"] (DefaultConfig "linux" "h")).1
      "template gone" rfl,
   (c10_error_output "linux" "h" (fun c => .ok { c with MaxAgeInDays := -1 })
      flagParseModel (fun _ => true)
      ["collector", "--thunderstorm-server", "https://x"]
      { DefaultConfig "linux" "h" with MaxAgeInDays := -1 }).2.2
      { DefaultConfig "linux" "h" with MaxAgeInDays := -1, Server := "https://x" }
      2 (by decide) (by decide) (by decide) (by decide) (by decide)
      (by
        intro j hj
        interval_cases j <;> decide)⟩

end Thunderstorm
